import Mathlib

/-!
Shallow embedding of the Strava authentication and synchronization engine of
the bike-cli repository (src/services/db.js, src/services/strava.js,
src/services/sync.js), together with theorems settling the specification
claims about it.

Modelling conventions:
* The JSON document store (data.json) is the `StoreData` structure; only the
  collections the sync engine touches (stravaTokens, bikes, activities) are
  modelled, the untouched collections (meta, components, maintenanceEvents)
  are omitted.
* ISO timestamp strings are modelled as integer epoch values: writing
  new Date().toISOString() stores the current integer time and Date.parse of
  a stored timestamp is the value itself.
* JavaScript string truthiness (null/undefined/empty string are falsy) is
  modelled by jsTruthyS on Option String.
* Arithmetic on a possibly missing number follows JavaScript coercion:
  undefined propagates NaN (every >= comparison is false) while null
  coerces to 0; the type JsNum carries the three cases.
* HTTP calls are passed in as explicit arguments (page lists, refresh and
  exchange responses), and fallible steps return Except.
-/

/-- JavaScript truthiness of a nullable string: null, undefined and the
empty string are falsy, every other string is truthy. -/
def jsTruthyS (s : Option String) : Bool :=
  match s with
  | some v => v ≠ ""
  | none => false

/-- JavaScript `x || null` on a nullable string: a falsy value becomes null. -/
def jsOrNullS (s : Option String) : Option String :=
  if jsTruthyS s then s else none

/-- JavaScript `a || b` on two nullable strings: the first truthy one wins. -/
def jsOrS (a b : Option String) : Option String :=
  if jsTruthyS a then a else b

/-- JavaScript `a || d` with a string default: a falsy value becomes `d`. -/
def jsStrOr (a : Option String) (d : String) : String :=
  if jsTruthyS a then a.getD "" else d

/-- JavaScript `x || 0` on a nullable number (0 stays 0 either way). -/
def jsOrZero (x : Option Int) : Int :=
  x.getD 0

/-- A JavaScript numeric value as it enters arithmetic: a number, null
(coerces to 0), or undefined (arithmetic yields NaN, comparisons false). -/
inductive JsNum where
  | num (n : Int)
  | null
  | undef
deriving DecidableEq

/-- View a nullable integer field as a JsNum (absent means null here). -/
def jsNumOfOpt (x : Option Int) : JsNum :=
  match x with
  | some n => JsNum.num n
  | none => JsNum.null

/-- The JS upsert discipline used throughout db.js: findIndex on a key
predicate, replace the first match in place, otherwise push to the end. -/
def jsUpsert {α : Type} (p : α → Bool) (x : α) : List α → List α
  | [] => [x]
  | y :: ys => if p y then x :: ys else y :: jsUpsert p x ys

/-- A stored Strava token record as written by upsertStravaToken
(db.js lines 48-66). Field names are camelCase in the store. -/
structure TokenRecord where
  athleteId : Option Int
  accessToken : String
  refreshToken : String
  expiresAt : Int
  scopes : Option String
  createdAt : Int
  updatedAt : Int
deriving DecidableEq

/-- A bike record as stored by upsertBike (db.js lines 90-104). -/
structure BikeRecord where
  id : String
  name : String
  type : Option String
  stravaGearId : Option String
  isDefault : Bool
  notes : Option String
  createdAt : Int
  updatedAt : Int
deriving DecidableEq

/-- A remote activity as returned by the provider activities endpoint
(the fields syncActivities reads). -/
structure Activity where
  id : Int
  gear_id : Option String
  start_date : String
  distance : Option Int
  moving_time : Option Int
  elapsed_time : Option Int
  total_elevation_gain : Option Int
  average_speed : Option Int
  type : Option String
deriving DecidableEq

/-- A stored activity record: the activityData object literal built in
syncActivities (sync.js lines 78-91). JSON.stringify(activity) is modelled
by keeping the activity value itself in rawJson. The record pushed by
sync.js carries no createdAt; upsertActivity would add one. -/
structure ActivityRecord where
  id : Int
  athleteId : Int
  bikeId : Option String
  stravaGearId : Option String
  startDate : String
  distanceM : Int
  movingTimeS : Int
  elapsedTimeS : Int
  elevGainM : Int
  averageSpeedMps : Int
  type : Option String
  rawJson : Activity
  createdAt : Option Int
deriving DecidableEq

/-- The persisted document store data.json, restricted to the collections
the sync engine touches (db.js initializeData). -/
structure StoreData where
  stravaTokens : List TokenRecord
  bikes : List BikeRecord
  activities : List ActivityRecord
deriving DecidableEq

/-- An empty store as initializeData would create it. -/
def emptyStore : StoreData :=
  { stravaTokens := [], bikes := [], activities := [] }

/-- The modifyData discipline (db.js lines 231-236): load the store, run the
modifier, save only when it completed. When the modifier throws, saveData is
never reached and the persisted store stays as loaded. -/
def modifyDataResult {ε : Type} (store : StoreData) (modified : Except ε StoreData) : StoreData :=
  match modified with
  | Except.ok d => d
  | Except.error _ => store

/-- upsertStravaToken (db.js lines 48-66): build a fresh record whose
createdAt and updatedAt are both the current time, then replace the first
record with the same athleteId or push. -/
def upsertStravaToken (data : StoreData) (athleteId : Option Int)
    (accessToken refreshToken : String) (expiresAt : Int)
    (scopes : Option String) (now : Int) : StoreData :=
  let token : TokenRecord :=
    { athleteId := athleteId, accessToken := accessToken,
      refreshToken := refreshToken, expiresAt := expiresAt, scopes := scopes,
      createdAt := now, updatedAt := now }
  { data with
    stravaTokens := jsUpsert (fun t => decide (t.athleteId = athleteId)) token data.stravaTokens }

/-- getStravaToken (db.js lines 68-84): with a null athleteId return the
most recently updated record (the reduce over Date.parse(updatedAt)),
otherwise the first record with that athleteId. -/
def getStravaToken (data : StoreData) (athleteId : Option Int) : Option TokenRecord :=
  match athleteId with
  | none =>
    if data.stravaTokens.length = 0 then none
    else
      data.stravaTokens.foldl
        (fun latest token =>
          match latest with
          | none => some token
          | some l => if token.updatedAt ≥ l.updatedAt then some token else some l)
        none
  | some _ => data.stravaTokens.find? (fun t => decide (t.athleteId = athleteId))

/-- The scope string constant of strava.js. -/
def SCOPES : String := "activity:read_all,read"

/-- In-memory state of a StravaClient (strava.js constructor): accessToken
and expiresAt and athleteId all start as null. -/
structure ClientState where
  accessToken : Option String
  expiresAt : Option Int
  athleteId : Option Int
deriving DecidableEq

/-- Reading the expires_at property of a stored token record. Stored records
are written with the camelCase field expiresAt (db.js upsertStravaToken), so
the snake_case access token.expires_at in strava.js yields undefined. -/
def TokenRecord.expires_at (_ : TokenRecord) : JsNum :=
  JsNum.undef

/-- isTokenExpired (strava.js lines 199-201):
Math.floor(Date.now() / 1000) >= token.expires_at - 300, under JS coercion:
a number compares normally, null coerces to 0, and undefined makes the
subtraction NaN so the comparison is false. -/
def isTokenExpired (now : Int) (expires_at : JsNum) : Bool :=
  match expires_at with
  | JsNum.num e => decide (now ≥ e - 300)
  | JsNum.null => decide (now ≥ 0 - 300)
  | JsNum.undef => false

/-- The token endpoint response body for a refresh or exchange request. -/
structure OAuthTokenResponse where
  access_token : String
  refresh_token : String
  expires_in : Int
deriving DecidableEq

/-- The token set derived from a token endpoint response
(strava.js lines 48-53 and 72-76): expiresAt := now + expires_in. -/
structure TokenSet where
  accessToken : String
  refreshToken : String
  expiresAt : Int
deriving DecidableEq

/-- refreshAccessToken / exchangeCodeForToken result shaping. -/
def tokensOfResponse (r : OAuthTokenResponse) (now : Int) : TokenSet :=
  { accessToken := r.access_token, refreshToken := r.refresh_token,
    expiresAt := now + r.expires_in }

/-- The store update performed after refreshAccessToken succeeds: the
modifyData callback of loadFromDb (strava.js lines 180-189) and of
ensureToken (lines 271-280), keyed by the client field this.athleteId. -/
def persistRefreshedToken (store : StoreData) (clientAthleteId : Option Int)
    (r : TokenSet) (scopes : Option String) (now : Int) : StoreData :=
  upsertStravaToken store clientAthleteId r.accessToken r.refreshToken r.expiresAt scopes now

/-- loadFromDb (strava.js lines 165-197). The refresh HTTP call is the
argument function from the stored refresh token to the endpoint response;
the returned Bool records whether a refresh request was made. The refreshed
object of refreshAccessToken has no scopes field, so undefined (none) scopes
are persisted on that path. -/
def loadFromDb (c : ClientState) (store : StoreData)
    (refresh : String → OAuthTokenResponse) (now : Int) :
    Except String (ClientState × StoreData × Bool) :=
  match getStravaToken store c.athleteId with
  | none => Except.error "No Strava token found. Run bike auth login first."
  | some token =>
    if isTokenExpired now token.expires_at then
      let r := tokensOfResponse (refresh token.refreshToken) now
      let store' := persistRefreshedToken store c.athleteId r none now
      Except.ok
        ({ c with accessToken := some r.accessToken, expiresAt := some r.expiresAt },
         store', true)
    else
      Except.ok
        ({ c with accessToken := some token.accessToken, expiresAt := some token.expiresAt },
         store, false)

/-- ensureToken (strava.js lines 255-289). The outer guard wraps the
in-memory expiry as an object literal with a snake_case expires_at field;
the inner guard passes the stored camelCase record directly. -/
def ensureToken (c : ClientState) (store : StoreData)
    (refresh : String → OAuthTokenResponse) (now : Int) :
    Except String (ClientState × StoreData × Bool) :=
  if !(jsTruthyS c.accessToken) || isTokenExpired now (jsNumOfOpt c.expiresAt) then
    match getStravaToken store c.athleteId with
    | none => Except.error "No valid Strava token. Run bike auth login."
    | some token =>
      if isTokenExpired now token.expires_at then
        let r := tokensOfResponse (refresh token.refreshToken) now
        let store' := persistRefreshedToken store c.athleteId r (some SCOPES) now
        Except.ok
          ({ c with accessToken := some r.accessToken, expiresAt := some r.expiresAt },
           store', true)
      else
        Except.ok
          ({ c with accessToken := some token.accessToken, expiresAt := some token.expiresAt },
           store, false)
  else
    Except.ok (c, store, false)

/-- A request hitting the callback listener: the parsed pathname and the
code and error query parameters (searchParams.get yields null when absent). -/
structure CallbackRequest where
  pathname : String
  code : Option String
  error : Option String
deriving DecidableEq

/-- What the listener does with its pending promise after a request. -/
inductive CallbackAction where
  | keepWaiting
  | settle (result : Except String String)

/-- The HTTP response written for a callback request. -/
structure CallbackResponse where
  status : Nat
  contentType : String
  body : String

/-- The full effect of handling one request: the response written, the
promise action, and whether finish() ran (clearTimeout plus server.close). -/
structure CallbackStep where
  response : CallbackResponse
  action : CallbackAction
  timerCleared : Bool
  serverClosed : Bool

/-- The static confirmation page rendered on a successful callback
(strava.js lines 120-128), with its markup flattened to one line. -/
def confirmationPage : String :=
  "<html><head><title>Strava Auth Complete</title></head><body><h1>Authorization successful!</h1><p>You can close this window and return to the terminal.</p></body></html>"

/-- The request handler of createCallbackServer (strava.js lines 94-136):
paths other than /callback get 404 and the listener keeps waiting; an error
parameter gets 400 and rejects; a code gets 200 HTML and resolves; neither
gets 400 and rejects; every terminal branch runs finish(). -/
def handleCallbackRequest (req : CallbackRequest) : CallbackStep :=
  if req.pathname ≠ "/callback" then
    { response := { status := 404, contentType := "text/plain", body := "Not found" },
      action := CallbackAction.keepWaiting,
      timerCleared := false, serverClosed := false }
  else if jsTruthyS req.error then
    { response := { status := 400, contentType := "text/plain",
                    body := "OAuth error: " ++ req.error.getD "" },
      action := CallbackAction.settle (Except.error ("OAuth error: " ++ req.error.getD "")),
      timerCleared := true, serverClosed := true }
  else if jsTruthyS req.code then
    { response := { status := 200, contentType := "text/html", body := confirmationPage },
      action := CallbackAction.settle (Except.ok (req.code.getD "")),
      timerCleared := true, serverClosed := true }
  else
    { response := { status := 400, contentType := "text/plain",
                    body := "Missing authorization code" },
      action := CallbackAction.settle (Except.error "Missing authorization code"),
      timerCleared := true, serverClosed := true }

/-- How the createCallbackServer promise ended, and whether the server got
closed on the way. -/
structure ServerTermination where
  result : Except String String
  serverClosed : Bool

/-- The timeout path of createCallbackServer (strava.js lines 138-140): when
no request arrives within timeoutMs the setTimeout handler closes the server
and rejects with the timeout error. -/
def callbackTimeoutTermination : ServerTermination :=
  { result := Except.error "Authorization timeout", serverClosed := true }

/-- The authenticated athlete profile fields authorize reads. -/
structure AthleteProfile where
  id : Int
  firstname : String
  lastname : String
  city : String
  state : String
  country : String
deriving DecidableEq

/-- The success value of authorize (strava.js lines 242-249). -/
structure AuthSummary where
  athleteId : Int
  name : String
  city : String
  state : String
  country : String
  scopes : String
deriving DecidableEq

/-- authorize (strava.js lines 203-253) as a function of the callback
outcome, the token-exchange response and the profile fetch. Any rejection
is wrapped as an authorization failure by the catch block; on the error
paths modifyData is never reached, so the returned store is unchanged. -/
def authorizeRun (c : ClientState) (store : StoreData)
    (callbackResult : Except String String)
    (exchange : String → Except String OAuthTokenResponse)
    (athleteFetch : Except String AthleteProfile) (now : Int) :
    Except String AuthSummary × ClientState × StoreData :=
  match callbackResult with
  | Except.error e => (Except.error ("Authorization failed: " ++ e), c, store)
  | Except.ok code =>
    match exchange code with
    | Except.error e => (Except.error ("Authorization failed: " ++ e), c, store)
    | Except.ok resp =>
      let tokens := tokensOfResponse resp now
      let c1 := { c with accessToken := some tokens.accessToken,
                         expiresAt := some tokens.expiresAt }
      match athleteFetch with
      | Except.error e => (Except.error ("Authorization failed: " ++ e), c1, store)
      | Except.ok athlete =>
        let c2 := { c1 with athleteId := some athlete.id }
        let store' := upsertStravaToken store (some athlete.id) tokens.accessToken
          tokens.refreshToken tokens.expiresAt (some SCOPES) now
        (Except.ok
          { athleteId := athlete.id,
            name := athlete.firstname ++ " " ++ athlete.lastname,
            city := athlete.city, state := athlete.state,
            country := athlete.country, scopes := SCOPES },
         c2, store')

/-- A gear entry of the athlete profile (the fields syncBikes reads). -/
structure Gear where
  gear_id : Option String
  resource_state : Int
  name : Option String
  nickname : Option String
  description : Option String
  brand_model : Option String
deriving DecidableEq

/-- The bike object passed to upsertBike by syncBikes: no createdAt field
is present on that call, upsertBike fills it in. -/
structure BikeInput where
  id : String
  name : String
  type : Option String
  stravaGearId : Option String
  isDefault : Bool
  notes : Option String
  createdAt : Option Int
deriving DecidableEq

/-- The record upsertBike stores: spread of the input with
createdAt := bike.createdAt || now and updatedAt := now. -/
def bikeRecordOfInput (b : BikeInput) (now : Int) : BikeRecord :=
  { id := b.id, name := b.name, type := b.type, stravaGearId := b.stravaGearId,
    isDefault := b.isDefault, notes := b.notes,
    createdAt := b.createdAt.getD now, updatedAt := now }

/-- upsertBike (db.js lines 90-104): replace the first bike with the same
id, otherwise push. -/
def upsertBike (data : StoreData) (b : BikeInput) (now : Int) : StoreData :=
  { data with
    bikes := jsUpsert (fun x => decide (x.id = b.id)) (bikeRecordOfInput b now) data.bikes }

/-- The local id choice of syncBikes (sync.js line 23):
existing?.id || generateId(). gen k is the next fresh id; the returned Nat
is the fresh-id counter after the choice. -/
def chooseBikeId (existing : Option BikeRecord) (gen : Nat → String) (k : Nat) :
    String × Nat :=
  match existing with
  | some b => if b.id = "" then (gen k, k + 1) else (b.id, k)
  | none => (gen k, k + 1)

/-- One iteration of the syncBikes loop (sync.js lines 21-33): match an
existing local bike by stravaGearId, choose the local id, and upsert. -/
def syncBikesStep (gen : Nat → String) (now : Int) (st : StoreData × Nat) (g : Gear) :
    StoreData × Nat :=
  let existing := st.1.bikes.find? (fun b => decide (b.stravaGearId = g.gear_id))
  let c := chooseBikeId existing gen st.2
  let input : BikeInput :=
    { id := c.1,
      name := jsStrOr (jsOrS g.name g.nickname) "Unnamed Bike",
      type := jsOrNullS g.description,
      stravaGearId := g.gear_id,
      isDefault := match existing with
        | some b => b.isDefault
        | none => false,
      notes := jsOrNullS g.brand_model,
      createdAt := none }
  (upsertBike st.1 input now, c.2)

/-- syncBikes (sync.js lines 15-37): filter the gear list to fully resolved
entries (resource_state 3), split bikes (truthy gear_id) from shoes, upsert
every bike, and return the new store, the fresh-id counter, and the
bikesCount and shoesCount of the result object. -/
def syncBikes (gen : Nat → String) (now : Int) (gears : List Gear)
    (data : StoreData) (k : Nat) : StoreData × Nat × Nat × Nat :=
  let bikes := gears.filter (fun g => decide (g.resource_state = 3) && jsTruthyS g.gear_id)
  let shoes := gears.filter (fun g => decide (g.resource_state = 3) && !jsTruthyS g.gear_id)
  let r := bikes.foldl (syncBikesStep gen now) (data, k)
  (r.1, r.2, bikes.length, shoes.length)

/-- bikeId resolution inside syncActivities (sync.js lines 70-76): when the
activity has a truthy gear_id, look up a local bike with that stravaGearId
and take its id; otherwise null. -/
def resolveBikeId (bikes : List BikeRecord) (gearId : Option String) : Option String :=
  if jsTruthyS gearId then
    match bikes.find? (fun b => decide (b.stravaGearId = gearId)) with
    | some b => some b.id
    | none => none
  else none

/-- The activityData object literal of syncActivities (sync.js lines 78-91). -/
def buildActivityRecord (athleteId : Int) (bikes : List BikeRecord) (a : Activity) :
    ActivityRecord :=
  { id := a.id,
    athleteId := athleteId,
    bikeId := resolveBikeId bikes a.gear_id,
    stravaGearId := jsOrNullS a.gear_id,
    startDate := a.start_date,
    distanceM := jsOrZero a.distance,
    movingTimeS := jsOrZero a.moving_time,
    elapsedTimeS := jsOrZero a.elapsed_time,
    elevGainM := jsOrZero a.total_elevation_gain,
    averageSpeedMps := jsOrZero a.average_speed,
    type := jsOrNullS a.type,
    rawJson := a,
    createdAt := none }

/-- upsertActivity (db.js lines 130-143): replace the first activity with
the same id, otherwise push, filling createdAt when absent. syncActivities
imports this function but never calls it. -/
def upsertActivity (data : StoreData) (a : ActivityRecord) (now : Int) : StoreData :=
  let record := { a with createdAt := some (a.createdAt.getD now) }
  { data with
    activities := jsUpsert (fun x => decide (x.id = a.id)) record data.activities }

/-- One iteration of the inner merge loop of syncActivities (sync.js lines
69-102), on a state of store plus the added and updated counters: the
counter matching the pre-existence check is bumped, and the record is then
pushed onto data.activities unconditionally (line 101). -/
def mergeActivity (athleteId : Int) (st : StoreData × Nat × Nat) (a : Activity) :
    StoreData × Nat × Nat :=
  let record := buildActivityRecord athleteId st.1.bikes a
  let found := st.1.activities.find? (fun r => decide (r.id = a.id))
  ({ st.1 with activities := st.1.activities ++ [record] },
   (if found.isSome then st.2.1 else st.2.1 + 1),
   (if found.isSome then st.2.2 + 1 else st.2.2))

/-- Merging one page of activities: the for-of loop over a page. -/
def mergePage (athleteId : Int) (st : StoreData × Nat × Nat) (acts : List Activity) :
    StoreData × Nat × Nat :=
  acts.foldl (mergeActivity athleteId) st

/-- The pagination loop of syncActivities (sync.js lines 58-109), driven by
the list of successive page responses the provider returns for pages 1, 2,
3, ... of size perPage = 200 (an exhausted provider returns empty pages). A
failed page fetch propagates as an error. The Nat alongside the final state
counts how many page fetches happened. -/
def syncActivitiesLoop (athleteId : Int) :
    StoreData × Nat × Nat → List (Except String (List Activity)) →
    Except String ((StoreData × Nat × Nat) × Nat)
  | st, [] => Except.ok (st, 1)
  | _st, Except.error e :: _rest => Except.error e
  | st, Except.ok acts :: rest =>
    if acts.length = 0 then Except.ok (st, 1)
    else
      let st1 := mergePage athleteId st acts
      if acts.length < 200 then Except.ok (st1, 1)
      else
        match syncActivitiesLoop athleteId st1 rest with
        | Except.ok r => Except.ok (r.1, r.2 + 1)
        | Except.error e => Except.error e

/-- syncActivities (sync.js lines 39-113) over an explicit page sequence:
run the pagination loop from the loaded store with zeroed counters. -/
def syncActivitiesRun (athleteId : Int) (store : StoreData)
    (pages : List (Except String (List Activity))) :
    Except String ((StoreData × Nat × Nat) × Nat) :=
  syncActivitiesLoop athleteId (store, 0, 0) pages

/-- The added and updated counts syncActivities returns on success. -/
def syncActivitiesCounts (athleteId : Int) (store : StoreData)
    (pages : List (Except String (List Activity))) : Except String (Nat × Nat) :=
  Except.map (fun r => (r.1.2.1, r.1.2.2)) (syncActivitiesRun athleteId store pages)

/-- The persisted store after a syncActivities call: the whole pagination
loop runs inside one modifyData (sync.js line 57), so saveData writes the
merged store only when every page succeeded; a thrown page fetch leaves the
persisted store as it was loaded. -/
def persistedAfterSyncActivities (athleteId : Int) (store : StoreData)
    (pages : List (Except String (List Activity))) : StoreData :=
  modifyDataResult store (Except.map (fun r => r.1.1) (syncActivitiesRun athleteId store pages))

/-- A concrete remote activity used for concrete evaluations. -/
def mkAct (n : Int) : Activity :=
  { id := n, gear_id := none, start_date := "2025-01-05", distance := some 1000,
    moving_time := some 100, elapsed_time := some 110, total_elevation_gain := some 10,
    average_speed := some 5, type := some "Ride" }

/-- A concrete page of n distinct remote activities. -/
def mkActs (n : Nat) : List Activity :=
  (List.range n).map (fun i => mkAct (Int.ofNat i))

/-- A single-page remote window holding one activity, as a provider would
return it for every sync over that window. -/
def onePage : List (Except String (List Activity)) :=
  [Except.ok [mkAct 1]]

/-- A concrete stored token record for athlete 7. -/
def demoStoredToken : TokenRecord :=
  { athleteId := some 7, accessToken := "storedAccess", refreshToken := "storedRefresh",
    expiresAt := 1000, scopes := some SCOPES, createdAt := 500, updatedAt := 500 }

/-- A store holding only the token record of athlete 7. -/
def demoTokenStore : StoreData :=
  { emptyStore with stravaTokens := [demoStoredToken] }

/-- A concrete token endpoint refresh response. -/
def demoRefreshResponse : OAuthTokenResponse :=
  { access_token := "freshAccess", refresh_token := "freshRefresh", expires_in := 21600 }

/-- A concrete refreshed token set as refreshAccessToken would shape it. -/
def demoRefreshedTokens : TokenSet :=
  { accessToken := "newAccess", refreshToken := "newRefresh", expiresAt := 99999 }

/-- A concrete local bike record matched by stravaGearId b123. -/
def demoBike : BikeRecord :=
  { id := "bike-1", name := "Road Bike", type := none, stravaGearId := some "b123",
    isDefault := true, notes := none, createdAt := 100, updatedAt := 100 }

/-- A store holding only demoBike. -/
def demoBikeStore : StoreData :=
  { emptyStore with bikes := [demoBike] }

/-- A concrete fully resolved remote gear entry with identifier b123. -/
def demoGear : Gear :=
  { gear_id := some "b123", resource_state := 3, name := some "Road Bike",
    nickname := none, description := some "road", brand_model := some "Acme 1" }

/-- A concrete fresh-id supply for the generateId calls. -/
def demoGen : Nat → String :=
  fun n => "local-" ++ toString n

/-- A concrete fully resolved gear entry with no gear identifier, as the
provider returns shoes. -/
def demoShoe : Gear :=
  { gear_id := none, resource_state := 3, name := some "Trail Shoes",
    nickname := none, description := none, brand_model := none }

/-- Helper lemma: a jsUpsert always leaves the upserted element in the list,
whether it replaced a match or was pushed. -/
theorem mem_jsUpsert {α : Type} (p : α → Bool) (x : α) (l : List α) :
    x ∈ jsUpsert p x l := by
  induction l with
  | nil => simp [jsUpsert]
  | cons y ys ih =>
    by_cases h : p y = true
    · simp [jsUpsert, h]
    · simp only [jsUpsert, h]
      simp only [Bool.false_eq_true, if_false, List.mem_cons]
      exact Or.inr ih

/-- Helper lemma: after a jsUpsert of an element satisfying the key
predicate, a find on that predicate returns exactly the upserted element. -/
theorem find?_jsUpsert {α : Type} (p : α → Bool) (x : α) (hx : p x = true)
    (l : List α) : (jsUpsert p x l).find? p = some x := by
  induction l with
  | nil => simp [jsUpsert, hx]
  | cons y ys ih =>
    by_cases h : p y = true
    · simp [jsUpsert, h, hx]
    · simp only [jsUpsert, h, Bool.false_eq_true, if_false]
      rw [List.find?_cons_of_neg _ h]
      exact ih

/-- C10: every call to upsertStravaToken stores a record whose createdAt and
updatedAt are both the current time, even when it replaces an existing
record for the same athleteId: the token retrieved for that athlete after
the call always carries createdAt = updatedAt = now, so a createdAt never
survives a refresh. -/
theorem upsertStravaToken_resets_both_timestamps (data : StoreData) (aid : Int)
    (accessToken refreshToken : String) (expiresAt : Int) (scopes : Option String)
    (now : Int) :
    getStravaToken (upsertStravaToken data (some aid) accessToken refreshToken expiresAt scopes now)
        (some aid) =
      some { athleteId := some aid, accessToken := accessToken,
             refreshToken := refreshToken, expiresAt := expiresAt, scopes := scopes,
             createdAt := now, updatedAt := now } := by
  unfold getStravaToken upsertStravaToken
  exact find?_jsUpsert _ _ (by simp) _

/-- C6: when the callback listener times out (no request within the
120-second window), the server is closed, authorize rejects with the
timeout wrapped as an authorization failure, and the store it returns is
exactly the store it was given: no token record is written. -/
theorem authorize_timeout_writes_no_token (c : ClientState) (store : StoreData)
    (exchange : String → Except String OAuthTokenResponse)
    (athleteFetch : Except String AthleteProfile) (now : Int) :
    authorizeRun c store callbackTimeoutTermination.result exchange athleteFetch now =
      (Except.error "Authorization failed: Authorization timeout", c, store) ∧
    callbackTimeoutTermination.serverClosed = true :=
  ⟨rfl, rfl⟩

/-- C8: the callback listener handles only the /callback path: any other
path gets 404 and the listener keeps waiting with timer and server intact;
on /callback a truthy error parameter gets 400 and rejects with the
provider error string; otherwise a truthy code gets the 200 HTML
confirmation page and resolves with the code; with neither, 400 and a
missing-code rejection; and every terminal branch clears the timer and
closes the server. -/
theorem callback_listener_request_table (req : CallbackRequest) :
    (req.pathname ≠ "/callback" →
      (handleCallbackRequest req).response.status = 404 ∧
      (handleCallbackRequest req).action = CallbackAction.keepWaiting ∧
      (handleCallbackRequest req).timerCleared = false ∧
      (handleCallbackRequest req).serverClosed = false) ∧
    (req.pathname = "/callback" → jsTruthyS req.error = true →
      (handleCallbackRequest req).response.status = 400 ∧
      (handleCallbackRequest req).action =
        CallbackAction.settle (Except.error ("OAuth error: " ++ req.error.getD "")) ∧
      (handleCallbackRequest req).timerCleared = true ∧
      (handleCallbackRequest req).serverClosed = true) ∧
    (req.pathname = "/callback" → jsTruthyS req.error = false → jsTruthyS req.code = true →
      (handleCallbackRequest req).response.status = 200 ∧
      (handleCallbackRequest req).response.contentType = "text/html" ∧
      (handleCallbackRequest req).response.body = confirmationPage ∧
      (handleCallbackRequest req).action = CallbackAction.settle (Except.ok (req.code.getD "")) ∧
      (handleCallbackRequest req).timerCleared = true ∧
      (handleCallbackRequest req).serverClosed = true) ∧
    (req.pathname = "/callback" → jsTruthyS req.error = false → jsTruthyS req.code = false →
      (handleCallbackRequest req).response.status = 400 ∧
      (handleCallbackRequest req).action =
        CallbackAction.settle (Except.error "Missing authorization code") ∧
      (handleCallbackRequest req).timerCleared = true ∧
      (handleCallbackRequest req).serverClosed = true) := by
  refine ⟨fun h => ?_, fun h he => ?_, fun h he hc => ?_, fun h he hc => ?_⟩
  · simp [handleCallbackRequest, h]
  · simp [handleCallbackRequest, h, he]
  · simp [handleCallbackRequest, h, he, hc]
  · simp [handleCallbackRequest, h, he, hc]

/-- Witness for C8: the four branches evaluated at concrete requests. -/
theorem callback_listener_request_table_witness :
    (handleCallbackRequest { pathname := "/other", code := none, error := none }).response.status = 404 ∧
    (handleCallbackRequest { pathname := "/callback", code := none, error := some "access_denied" }).response.status = 400 ∧
    (handleCallbackRequest { pathname := "/callback", code := some "abc", error := none }).response.status = 200 ∧
    (handleCallbackRequest { pathname := "/callback", code := none, error := none }).response.status = 400 :=
  ⟨((callback_listener_request_table { pathname := "/other", code := none, error := none }).1
      (by decide)).1,
   ((callback_listener_request_table { pathname := "/callback", code := none, error := some "access_denied" }).2.1
      rfl (by decide)).1,
   ((callback_listener_request_table { pathname := "/callback", code := some "abc", error := none }).2.2.1
      rfl (by decide) (by decide)).1,
   ((callback_listener_request_table { pathname := "/callback", code := none, error := none }).2.2.2
      rfl (by decide) (by decide)).1⟩

/-- C2: evaluation exhibiting the expiry-check slip. The stored token of
athlete 7 expired long ago (now = 10000, expiresAt = 1000, so the claimed
refresh condition now >= expiresAt - 300 holds), and the in-memory token is
also expired, yet ensureToken performs no refresh request (the Bool in the
result is false) and reuses the stored access token unchanged: the stored
record is read through its absent snake_case expires_at field, so
isTokenExpired is false on every stored token. -/
theorem ensureToken_skips_refresh_for_expired_stored_token :
    ((10000 : Int) ≥ demoStoredToken.expiresAt - 300) ∧
    ensureToken { accessToken := some "memAccess", expiresAt := some 1000, athleteId := some 7 }
        demoTokenStore (fun _ => demoRefreshResponse) 10000 =
      Except.ok
        ({ accessToken := some "storedAccess", expiresAt := some 1000, athleteId := some 7 },
         demoTokenStore, false) :=
  ⟨by decide, rfl⟩

/-- C3: evaluation exhibiting the refresh-persistence slip. With the token
of athlete 7 stored, the refresh write of loadFromDb runs with the client
athleteId still null, so upsertStravaToken appends a second record keyed
null instead of replacing: the store ends with two token records, and a
lookup for athlete 7 still retrieves the stale refresh token even though
the newly returned refresh token was also persisted. -/
theorem refresh_persist_keeps_stale_refresh_token :
    (persistRefreshedToken demoTokenStore none demoRefreshedTokens none 600).stravaTokens.length = 2 ∧
    Option.map (fun t => t.refreshToken)
        (getStravaToken (persistRefreshedToken demoTokenStore none demoRefreshedTokens none 600)
          (some 7)) = some "storedRefresh" ∧
    Option.map (fun t => t.refreshToken)
        (getStravaToken (persistRefreshedToken demoTokenStore none demoRefreshedTokens none 600)
          none) = some "newRefresh" :=
  ⟨rfl, rfl, rfl⟩

/-- C1: evaluation exhibiting the duplicate-append slip. Syncing a one-page
window with one activity over an empty store reports added 1 and updated 0
with one stored record; an immediate second sync over the same window
reports added 0 and updated 1, as the claim states, but the activities
collection then holds two records, both with remote id 1: the merge pushes
a fresh record instead of updating in place, so the collection size is not
unchanged and the per-id uniqueness fails. -/
theorem second_sync_duplicates_activity :
    syncActivitiesCounts 7 emptyStore onePage = Except.ok (1, 0) ∧
    (persistedAfterSyncActivities 7 emptyStore onePage).activities.length = 1 ∧
    syncActivitiesCounts 7 (persistedAfterSyncActivities 7 emptyStore onePage) onePage =
      Except.ok (0, 1) ∧
    (persistedAfterSyncActivities 7 (persistedAfterSyncActivities 7 emptyStore onePage)
        onePage).activities.length = 2 ∧
    ((persistedAfterSyncActivities 7 (persistedAfterSyncActivities 7 emptyStore onePage)
        onePage).activities.filter (fun r => decide (r.id = 1))).length = 2 :=
  ⟨rfl, rfl, rfl, rfl, rfl⟩

/-- Helper lemma: when every page before a failing fetch is a full page of
200 activities, the pagination loop keeps requesting pages until the
failing one and then propagates its error, from any starting state. -/
theorem syncActivitiesLoop_error_of_full_pages (athleteId : Int) (e : String)
    (rest : List (Except String (List Activity))) :
    ∀ pre : List (List Activity), (∀ p ∈ pre, p.length = 200) →
      ∀ st, syncActivitiesLoop athleteId st (pre.map Except.ok ++ Except.error e :: rest) =
        Except.error e := by
  intro pre
  induction pre with
  | nil => intro _ st; rfl
  | cons p ps ih =>
    intro h st
    have hp : p.length = 200 := h p (List.mem_cons_self p ps)
    have hps : ∀ q ∈ ps, q.length = 200 := fun q hq => h q (List.mem_cons_of_mem p hq)
    have h0 : ¬ (p.length = 0) := by omega
    have h1 : ¬ (p.length < 200) := by omega
    simp only [List.map_cons, List.cons_append, syncActivitiesLoop, if_neg h0, if_neg h1,
      List.append_eq]
    rw [ih hps]

/-- C4 (amended): if fetching page k fails after pages 1 to k-1 were full
pages already merged in memory, sync aborts the remaining pagination and
propagates the page error, and the persisted store is exactly the store
loaded before the sync: none of the merged records survive, because
saveData runs only after the whole modifier completes. -/
theorem sync_page_failure_aborts_and_persists_nothing (athleteId : Int)
    (store : StoreData) (pre : List (List Activity)) (e : String)
    (rest : List (Except String (List Activity)))
    (hpre : ∀ p ∈ pre, p.length = 200) :
    syncActivitiesRun athleteId store (pre.map Except.ok ++ Except.error e :: rest) =
      Except.error e ∧
    persistedAfterSyncActivities athleteId store (pre.map Except.ok ++ Except.error e :: rest) =
      store := by
  have h := syncActivitiesLoop_error_of_full_pages athleteId e rest pre hpre (store, 0, 0)
  have hrun : syncActivitiesRun athleteId store (pre.map Except.ok ++ Except.error e :: rest) =
      Except.error e := h
  refine ⟨hrun, ?_⟩
  simp [persistedAfterSyncActivities, hrun, modifyDataResult, Except.map]

/-- Witness for C4: one full page of 200 activities followed by a failing
page fetch, from an empty store. -/
theorem sync_page_failure_aborts_and_persists_nothing_witness :
    syncActivitiesRun 7 emptyStore
        ([mkActs 200].map Except.ok ++ Except.error "network down" :: []) =
      Except.error "network down" ∧
    persistedAfterSyncActivities 7 emptyStore
        ([mkActs 200].map Except.ok ++ Except.error "network down" :: []) = emptyStore :=
  sync_page_failure_aborts_and_persists_nothing 7 emptyStore [mkActs 200] "network down" []
    (by
      intro p hp
      rw [List.mem_singleton] at hp
      subst hp
      simp [mkActs])

/-- C4 (counterexample to the claim as stated): page 1 succeeds with 200
activities and page 2 throws; the error propagates, but the persisted store
is the unchanged empty store, its activities collection still empty, so the
records merged from page 1 do not remain committed. -/
theorem merged_pages_not_committed_on_failure :
    syncActivitiesRun 7 emptyStore [Except.ok (mkActs 200), Except.error "network down"] =
      Except.error "network down" ∧
    (mkActs 200).length = 200 ∧
    persistedAfterSyncActivities 7 emptyStore
        [Except.ok (mkActs 200), Except.error "network down"] = emptyStore ∧
    (persistedAfterSyncActivities 7 emptyStore
        [Except.ok (mkActs 200), Except.error "network down"]).activities = [] := by
  have h := syncActivitiesLoop_error_of_full_pages 7 "network down" [] [mkActs 200]
    (by
      intro p hp
      rw [List.mem_singleton] at hp
      subst hp
      simp [mkActs])
    (emptyStore, 0, 0)
  have hrun : syncActivitiesRun 7 emptyStore
      [Except.ok (mkActs 200), Except.error "network down"] = Except.error "network down" := h
  have hpersist : persistedAfterSyncActivities 7 emptyStore
      [Except.ok (mkActs 200), Except.error "network down"] = emptyStore := by
    simp [persistedAfterSyncActivities, hrun, modifyDataResult, Except.map]
  refine ⟨hrun, by simp [mkActs], hpersist, ?_⟩
  rw [hpersist]
  rfl

/-- Helper lemma: merging a page only appends to the activities collection,
so every record present before the page is still present afterwards. -/
theorem mergePage_preserves_activities (athleteId : Int) (acts : List Activity) :
    ∀ st : StoreData × Nat × Nat, ∀ r ∈ st.1.activities,
      r ∈ (mergePage athleteId st acts).1.activities := by
  induction acts with
  | nil => intro st r hr; exact hr
  | cons a as ih =>
    intro st r hr
    have hstep : r ∈ (mergeActivity athleteId st a).1.activities := by
      simp only [mergeActivity, List.mem_append]
      exact Or.inl hr
    simpa only [mergePage, List.foldl_cons] using ih (mergeActivity athleteId st a) r hstep

/-- Helper lemma: after merging a page, every activity of the page has a
record with its remote id in the activities collection. -/
theorem mergePage_merges_every_activity (athleteId : Int) (acts : List Activity) :
    ∀ st : StoreData × Nat × Nat, ∀ a ∈ acts,
      ∃ r ∈ (mergePage athleteId st acts).1.activities, r.id = a.id := by
  induction acts with
  | nil => intro st a ha; exact absurd ha (List.not_mem_nil a)
  | cons b bs ih =>
    intro st a ha
    rcases List.mem_cons.mp ha with h | h
    · subst h
      have hrec : buildActivityRecord athleteId st.1.bikes a ∈
          (mergeActivity athleteId st a).1.activities := by
        simp only [mergeActivity, List.mem_append]
        exact Or.inr (List.mem_singleton.mpr rfl)
      have hmem := mergePage_preserves_activities athleteId bs
        (mergeActivity athleteId st a) _ hrec
      refine ⟨buildActivityRecord athleteId st.1.bikes a, ?_, rfl⟩
      simpa only [mergePage, List.foldl_cons] using hmem
    · have := ih (mergeActivity athleteId st b) a h
      simpa only [mergePage, List.foldl_cons] using this

/-- C5: for a provider returning pages of sizes 200, 200 and 120, the
pagination makes exactly 3 page fetches (pages 1, 2, 3 in order, perPage
fixed at 200 in the loop), terminating on the short third page, and every
activity from all three pages ends up merged into the persisted store. -/
theorem pagination_three_pages (store : StoreData) (athleteId : Int)
    (p1 p2 p3 : List Activity)
    (h1 : p1.length = 200) (h2 : p2.length = 200) (h3 : p3.length = 120) :
    syncActivitiesRun athleteId store [Except.ok p1, Except.ok p2, Except.ok p3] =
      Except.ok
        (mergePage athleteId (mergePage athleteId (mergePage athleteId (store, 0, 0) p1) p2) p3,
         3) ∧
    ∀ a ∈ p1 ++ p2 ++ p3,
      ∃ r ∈ (persistedAfterSyncActivities athleteId store
          [Except.ok p1, Except.ok p2, Except.ok p3]).activities, r.id = a.id := by
  have e1 : ¬ (p1.length = 0) := by omega
  have l1 : ¬ (p1.length < 200) := by omega
  have e2 : ¬ (p2.length = 0) := by omega
  have l2 : ¬ (p2.length < 200) := by omega
  have e3 : ¬ (p3.length = 0) := by omega
  have l3 : p3.length < 200 := by omega
  have hrun : syncActivitiesRun athleteId store [Except.ok p1, Except.ok p2, Except.ok p3] =
      Except.ok
        (mergePage athleteId (mergePage athleteId (mergePage athleteId (store, 0, 0) p1) p2) p3,
         3) := by
    simp only [syncActivitiesRun, syncActivitiesLoop, if_neg e1, if_neg l1, if_neg e2,
      if_neg l2, if_neg e3, if_pos l3]
  have hpersist : persistedAfterSyncActivities athleteId store
      [Except.ok p1, Except.ok p2, Except.ok p3] =
      (mergePage athleteId (mergePage athleteId (mergePage athleteId (store, 0, 0) p1) p2) p3).1 := by
    simp [persistedAfterSyncActivities, hrun, modifyDataResult, Except.map]
  refine ⟨hrun, ?_⟩
  intro a ha
  rw [hpersist]
  rcases List.mem_append.mp ha with h12 | hp3
  · rcases List.mem_append.mp h12 with hp1 | hp2
    · obtain ⟨r, hr, hid⟩ := mergePage_merges_every_activity athleteId p1 (store, 0, 0) a hp1
      have hr2 := mergePage_preserves_activities athleteId p2 _ r hr
      have hr3 := mergePage_preserves_activities athleteId p3 _ r hr2
      exact ⟨r, hr3, hid⟩
    · obtain ⟨r, hr, hid⟩ := mergePage_merges_every_activity athleteId p2
        (mergePage athleteId (store, 0, 0) p1) a hp2
      have hr3 := mergePage_preserves_activities athleteId p3 _ r hr
      exact ⟨r, hr3, hid⟩
  · exact mergePage_merges_every_activity athleteId p3 _ a hp3

/-- Witness for C5: concrete pages of 200, 200 and 120 activities. -/
theorem pagination_three_pages_witness :
    syncActivitiesRun 7 emptyStore
        [Except.ok (mkActs 200), Except.ok (mkActs 200), Except.ok (mkActs 120)] =
      Except.ok
        (mergePage 7 (mergePage 7 (mergePage 7 (emptyStore, 0, 0) (mkActs 200)) (mkActs 200))
           (mkActs 120),
         3) ∧
    ∀ a ∈ mkActs 200 ++ mkActs 200 ++ mkActs 120,
      ∃ r ∈ (persistedAfterSyncActivities 7 emptyStore
          [Except.ok (mkActs 200), Except.ok (mkActs 200), Except.ok (mkActs 120)]).activities,
        r.id = a.id :=
  pagination_three_pages emptyStore 7 (mkActs 200) (mkActs 200) (mkActs 120)
    (by simp [mkActs]) (by simp [mkActs]) (by simp [mkActs])

/-- C7: local bike ids are stable across gear syncs. When syncBikes runs on
a fully resolved gear entry and a local bike with that stravaGearId already
exists (with the nonempty id every generated record has), the upserted bike
keeps that local id and no fresh id is consumed; a fresh id (the next one
of the supply) is generated exactly when no bike with that stravaGearId
exists. -/
theorem sync_bikes_local_id_stable (gen : Nat → String) (now : Int)
    (data : StoreData) (k : Nat) (g : Gear)
    (hg3 : g.resource_state = 3) (hgid : jsTruthyS g.gear_id = true) :
    (∀ b, data.bikes.find? (fun x => decide (x.stravaGearId = g.gear_id)) = some b →
      b.id ≠ "" →
      (∃ r ∈ (syncBikes gen now [g] data k).1.bikes,
        r.id = b.id ∧ r.stravaGearId = g.gear_id) ∧
      (syncBikes gen now [g] data k).2.1 = k) ∧
    (data.bikes.find? (fun x => decide (x.stravaGearId = g.gear_id)) = none →
      (∃ r ∈ (syncBikes gen now [g] data k).1.bikes,
        r.id = gen k ∧ r.stravaGearId = g.gear_id) ∧
      (syncBikes gen now [g] data k).2.1 = k + 1) := by
  have hfilter : List.filter (fun g => decide (g.resource_state = 3) && jsTruthyS g.gear_id) [g]
      = [g] := by
    simp [List.filter, hg3, hgid]
  constructor
  · intro b hfind hbid
    have hrun : syncBikes gen now [g] data k =
        (upsertBike data
          { id := b.id,
            name := jsStrOr (jsOrS g.name g.nickname) "Unnamed Bike",
            type := jsOrNullS g.description,
            stravaGearId := g.gear_id,
            isDefault := b.isDefault,
            notes := jsOrNullS g.brand_model,
            createdAt := none } now, k, 1, 0) := by
      simp [syncBikes, hfilter, syncBikesStep, hfind, chooseBikeId, hbid, hg3, hgid]
    rw [hrun]
    exact ⟨⟨bikeRecordOfInput
      { id := b.id,
        name := jsStrOr (jsOrS g.name g.nickname) "Unnamed Bike",
        type := jsOrNullS g.description,
        stravaGearId := g.gear_id,
        isDefault := b.isDefault,
        notes := jsOrNullS g.brand_model,
        createdAt := none } now, mem_jsUpsert _ _ _, rfl, rfl⟩, rfl⟩
  · intro hfind
    have hrun : syncBikes gen now [g] data k =
        (upsertBike data
          { id := gen k,
            name := jsStrOr (jsOrS g.name g.nickname) "Unnamed Bike",
            type := jsOrNullS g.description,
            stravaGearId := g.gear_id,
            isDefault := false,
            notes := jsOrNullS g.brand_model,
            createdAt := none } now, k + 1, 1, 0) := by
      simp [syncBikes, hfilter, syncBikesStep, hfind, chooseBikeId, hg3, hgid]
    rw [hrun]
    exact ⟨⟨bikeRecordOfInput
      { id := gen k,
        name := jsStrOr (jsOrS g.name g.nickname) "Unnamed Bike",
        type := jsOrNullS g.description,
        stravaGearId := g.gear_id,
        isDefault := false,
        notes := jsOrNullS g.brand_model,
        createdAt := none } now, mem_jsUpsert _ _ _, rfl, rfl⟩, rfl⟩

/-- Witness for C7: the matched case on a store already holding the bike
for gear b123, and the fresh-id case on the empty store. -/
theorem sync_bikes_local_id_stable_witness :
    ((∃ r ∈ (syncBikes demoGen 900 [demoGear] demoBikeStore 0).1.bikes,
        r.id = demoBike.id ∧ r.stravaGearId = demoGear.gear_id) ∧
      (syncBikes demoGen 900 [demoGear] demoBikeStore 0).2.1 = 0) ∧
    ((∃ r ∈ (syncBikes demoGen 900 [demoGear] emptyStore 0).1.bikes,
        r.id = demoGen 0 ∧ r.stravaGearId = demoGear.gear_id) ∧
      (syncBikes demoGen 900 [demoGear] emptyStore 0).2.1 = 0 + 1) :=
  ⟨(sync_bikes_local_id_stable demoGen 900 demoBikeStore 0 demoGear rfl rfl).1 demoBike
      (by decide) (by decide),
   (sync_bikes_local_id_stable demoGen 900 emptyStore 0 demoGear rfl rfl).2 rfl⟩

/-- C9: bike records are created or updated only from gear entries with
resource_state 3 that carry a gear identifier. Inserting an entry failing
either condition (not fully resolved, or without a truthy gear_id, such as
a shoe) anywhere in the gear list leaves the resulting store, the fresh-id
counter and the bikesCount of syncBikes unchanged: no Bike record is ever
created or updated from such an entry. -/
theorem sync_bikes_only_from_resolved_gear_with_id (gen : Nat → String) (now : Int)
    (data : StoreData) (k : Nat) (pre post : List Gear) (g : Gear)
    (hg : g.resource_state ≠ 3 ∨ jsTruthyS g.gear_id = false) :
    (syncBikes gen now (pre ++ g :: post) data k).1 =
      (syncBikes gen now (pre ++ post) data k).1 ∧
    (syncBikes gen now (pre ++ g :: post) data k).2.1 =
      (syncBikes gen now (pre ++ post) data k).2.1 ∧
    (syncBikes gen now (pre ++ g :: post) data k).2.2.1 =
      (syncBikes gen now (pre ++ post) data k).2.2.1 := by
  have hp : (decide (g.resource_state = 3) && jsTruthyS g.gear_id) = false := by
    rcases hg with h | h
    · simp [decide_eq_false h]
    · simp [h]
  refine ⟨?_, ?_, ?_⟩ <;> simp [syncBikes, List.filter_append, List.filter_cons, hp]

/-- Witness for C9: a resource_state 2 copy of the demo gear, and a fully
resolved shoe entry without a gear identifier, each inserted between two
resolved bike entries, leave the resulting store unchanged. -/
theorem sync_bikes_only_from_resolved_gear_with_id_witness :
    (syncBikes demoGen 900 ([demoGear] ++ { demoGear with resource_state := 2 } :: [demoGear])
        demoBikeStore 0).1 =
      (syncBikes demoGen 900 ([demoGear] ++ [demoGear]) demoBikeStore 0).1 ∧
    (syncBikes demoGen 900 ([demoGear] ++ demoShoe :: [demoGear]) demoBikeStore 0).1 =
      (syncBikes demoGen 900 ([demoGear] ++ [demoGear]) demoBikeStore 0).1 :=
  ⟨(sync_bikes_only_from_resolved_gear_with_id demoGen 900 demoBikeStore 0 [demoGear] [demoGear]
      { demoGear with resource_state := 2 } (Or.inl (by decide))).1,
   (sync_bikes_only_from_resolved_gear_with_id demoGen 900 demoBikeStore 0 [demoGear] [demoGear]
      demoShoe (Or.inr (by decide))).1⟩
